import Mathlib

/-!
Verification of the rpaas-operator instance configuration and lifecycle
manager (`internal/pkg/rpaas`) against its natural-language specification.

The manager implementation file itself (`k8s.go`) is not part of the
source tree available here; only its test suite (`k8s_test.go`) is.
Following the specification (spec.md, sections 3-7), each operation is
modelled as a pure Lean function over an explicit cluster state; the
tests pin down concrete behaviours (error messages, orderings) where
the specification's prose is loose.  Kubernetes maps are modelled as
association lists, byte slices as strings, and the fan-out purge
transport as a boolean-valued function per replica address.
-/

namespace Rpaas

/-- The three error kinds of the manager (spec section 7): `NotFoundError`,
`ValidationError` and `ConflictError`, each carrying a message. -/
inductive RpaasErr where
  | notFound (msg : String)
  | validation (msg : String)
  | conflict (msg : String)
deriving DecidableEq, Repr

/-- Association-list lookup, modelling a Go `map[string]T` read. -/
def lookupA {α : Type} : List (String × α) → String → Option α
  | [], _ => none
  | (k', v) :: rest, k => if k' = k then some v else lookupA rest k

/-- Association-list insert/replace, modelling a Go `map[string]T` write. -/
def setA {α : Type} : List (String × α) → String → α → List (String × α)
  | [], k, v => [(k, v)]
  | (k', v') :: rest, k, v =>
      if k' = k then (k, v) :: rest else (k', v') :: setA rest k v

/-- Association-list delete (first occurrence), modelling Go `delete(m, k)`
on a map whose keys are unique. -/
def removeKey {α : Type} : List (String × α) → String → List (String × α)
  | [], _ => []
  | (k', v) :: rest, k => if k' = k then rest else (k', v) :: removeKey rest k

/-- Modelled from the spec: `mergeMap` copies the base map and then overwrites
it with every entry of the overriding map (used by instance label updates). -/
def mergeMapA {α : Type} (base new : List (String × α)) : List (String × α) :=
  new.foldl (fun acc kv => setA acc kv.1 kv.2) base

/-- Byte-wise (here: character-code-wise) comparison of two strings,
used to sort plan names for deterministic Conflict messages. -/
def strLeList : List Char → List Char → Bool
  | [], _ => true
  | _ :: _, [] => false
  | a :: as, b :: bs =>
      if a.val < b.val then true
      else if b.val < a.val then false
      else strLeList as bs

/-- `strLe a b` is true when `a` sorts no later than `b`. -/
def strLe (a b : String) : Bool := strLeList a.data b.data

/-- Insertion into a sorted list of strings. -/
def insertSorted (s : String) : List String → List String
  | [] => [s]
  | x :: xs => if strLe s x then s :: x :: xs else x :: insertSorted s xs

/-- Insertion sort on strings (spec section 9: plan names are sorted
explicitly before formatting the Conflict message). -/
def sortStrings : List String → List String
  | [] => []
  | x :: xs => insertSorted x (sortStrings xs)

/-- A reference into the external keyed store (a ConfigMap key selector):
object name, key and the tri-state optional flag (spec section 3,
"Value Resolver"). -/
structure ValueSource where
  name : String
  key : String
  optional : Option Bool := none
deriving DecidableEq, Repr

/-- A "value or reference" construct (spec section 9): either an inline
literal or a reference into the external keyed store. -/
structure Value where
  value : String := ""
  valueFrom : Option ValueSource := none
deriving DecidableEq, Repr

/-- One item of the certificate bundle: the two storage keys
(`<name>.crt` and `<name>.key`) inside the shared secret. -/
structure TLSSecretItem where
  certificateField : String
  keyField : String
deriving DecidableEq, Repr

/-- The certificate bundle: the name of the backing secret object plus
the item index (spec section 3, "Certificate Bundle"). -/
structure TLSSecret where
  secretName : String
  items : List TLSSecretItem
deriving DecidableEq, Repr

/-- The extra-file set: the name of the backing ConfigMap plus the
storage-key to logical-path index (spec section 3, "Extra-File Set"). -/
structure FilesRef where
  name : String
  files : List (String × String)
deriving DecidableEq, Repr

/-- A location/route: path identity, and exactly one of inline/referenced
content or a forwarding destination; the destination may carry the
force-HTTPS flag (spec section 3, "Location/Route"). -/
structure Location where
  path : String
  destination : String := ""
  forceHTTPS : Bool := false
  content : Option Value := none
deriving DecidableEq, Repr

/-- The instance spec: child collections are `Option`-wrapped so that a
nil (absent) collection is distinguishable from an empty one, mirroring
Go's nil map/slice versus empty (spec section 3). -/
structure RpaasInstanceSpec where
  planName : String := ""
  planTemplate : Option String := none
  blocks : Option (List (String × Value)) := none
  locations : Option (List Location) := none
  certificates : Option TLSSecret := none
  extraFiles : Option FilesRef := none
  host : String := ""
  podTemplateLabels : List (String × String) := []
deriving DecidableEq, Repr

/-- A reverse-proxy instance: identity, labels/annotations metadata and
the spec (spec section 3, "Instance"). -/
structure RpaasInstance where
  name : String := ""
  labels : List (String × String) := []
  annotations : List (String × String) := []
  spec : RpaasInstanceSpec := {}
deriving DecidableEq, Repr

/-- Helper: does a character list contain two consecutive dots? -/
def hasDotDot : List Char → Bool
  | [] => false
  | [_] => false
  | a :: b :: rest => (a = '.' && b = '.') || hasDotDot (b :: rest)

/-- Helper: does the path (as characters) start with a separator,
i.e. is it absolute? -/
def startsWithSlash : List Char → Bool
  | [] => false
  | c :: _ => c = '/'

/-- Modelled from the spec: `isPathValid` (Extra-File Manager, spec
section 4.4; implementation `k8s.go` not under the source tree).  It
rejects absolute paths and any path containing the substring `..`, and
accepts ordinary relative paths including dotfiles and `./`-prefixed
paths; this reproduces every expectation of `Test_isPathValid`. -/
def isPathValid (p : String) : Bool :=
  !startsWithSlash p.data && !hasDotDot p.data

/-- Replacement performed on every character of a logical path when it is
turned into a flat storage key: path separators and characters other than
alphanumerics, hyphen and dot become an underscore. -/
def keyChar (c : Char) : Char :=
  if c.isAlphanum || c = '-' || c = '.' then c else '_'

/-- Modelled from the spec: `convertPathToConfigMapKey` (spec section 4.4;
implementation `k8s.go` not under the source tree) derives a collision-safe
flat storage key from a logical path. -/
def convertPathToConfigMapKey (p : String) : String :=
  String.mk (p.data.map keyChar)

/-- The route payload of the manager API: a path plus either inline
content or a forwarding destination, the latter optionally force-HTTPS. -/
structure Route where
  path : String := ""
  destination : String := ""
  content : String := ""
  httpsOnly : Bool := false
deriving DecidableEq, Repr

/-- Modelled from the spec: the safety check applied to a route's path by
`UpdateRoute` (spec section 4.2; implementation `k8s.go` not under the
source tree).  Route paths are NGINX location paths: they must be
absolute (slash-prefixed) and contain no space, which reproduces the
`Test_k8sRpaasManager_UpdateRoute` expectations (`/my/custom/path`
accepted, `../../passwd` rejected as "invalid path format"). -/
def routePathValid (p : String) : Bool :=
  startsWithSlash p.data && !(p.data.contains ' ')

/-- Modelled from the spec: the validation performed by `UpdateRoute`
before any mutation (spec section 4.2), in its exact order: (1) path
required; (2) path safety check; (3) exactly one of content/destination,
with distinct messages for both-absent and both-present; (4) content
together with force-HTTPS rejected. -/
def validateRoute (r : Route) : Option RpaasErr :=
  if r.path = "" then some (.validation "path is required")
  else if routePathValid r.path = false then some (.validation "invalid path format")
  else if r.content = "" ∧ r.destination = "" then
    some (.validation "either content or destination are required")
  else if r.content ≠ "" ∧ r.destination ≠ "" then
    some (.validation "cannot set both content and destination")
  else if r.content ≠ "" ∧ r.httpsOnly = true then
    some (.validation "cannot set both content and httpsonly")
  else none

/-- The stored location built from a validated route: inline content
clears destination and the force-HTTPS flag; a destination route carries
the flag and no content. -/
def mkLocation (r : Route) : Location :=
  if r.content ≠ "" then
    { path := r.path, destination := "", forceHTTPS := false,
      content := some { value := r.content } }
  else
    { path := r.path, destination := r.destination,
      forceHTTPS := r.httpsOnly, content := none }

/-- Upsert into the ordered location list: an existing path is replaced
in place (preserving its index), a new path is appended at the end. -/
def setLocation : List Location → Location → List Location
  | [], l => [l]
  | x :: xs, l => if x.path = l.path then l :: xs else x :: setLocation xs l

/-- Modelled from the spec: `UpdateRoute` (spec section 4.2; implementation
`k8s.go` not under the source tree).  Validates the route and, on success,
upserts it into the instance's ordered location list; on a validation
error no mutation is produced. -/
def updateRoute (inst : RpaasInstance) (r : Route) : Except RpaasErr RpaasInstance :=
  match validateRoute r with
  | some e => .error e
  | none =>
      .ok { inst with spec := { inst.spec with
              locations := some (setLocation (inst.spec.locations.getD []) (mkLocation r)) } }

/-- An execution plan: name plus the scope-default marker
(spec section 3, "Plan"). -/
structure RpaasPlan where
  name : String
  isDefault : Bool := false
deriving DecidableEq, Repr

/-- Modelled from the spec: `getPlan` (spec section 4.5; implementation
`k8s.go` not under the source tree).  A non-empty name is an exact
lookup; an empty name resolves the unique default plan, with `NotFound`
when no plan is marked default and `Conflict` (offending names sorted,
spec section 9) when several are. -/
def getPlan (plans : List RpaasPlan) (name : String) : Except RpaasErr RpaasPlan :=
  if name ≠ "" then
    match plans.find? (fun p => p.name = name) with
    | some p => .ok p
    | none => .error (.notFound ("plan \"" ++ name ++ "\" not found"))
  else
    match plans.filter (fun p => p.isDefault) with
    | [] => .error (.notFound "no default plan found")
    | [p] => .ok p
    | ps => .error (.conflict ("several default plans found: [" ++
              String.intercalate ", " (sortStrings (ps.map (fun p => p.name))) ++ "]"))

/-- Modelled from the spec: `DeleteBlock` (spec section 4.1; implementation
`k8s.go` not under the source tree).  `NotFound` when the block is absent;
removing the last remaining block leaves the collection nil, not empty. -/
def deleteBlock (inst : RpaasInstance) (name : String) : Except RpaasErr RpaasInstance :=
  let blocks := inst.spec.blocks.getD []
  match lookupA blocks name with
  | none => .error (.notFound ("block \"" ++ name ++ "\" not found"))
  | some _ =>
      let blocks' := removeKey blocks name
      .ok { inst with spec := { inst.spec with
              blocks := if blocks' = [] then none else some blocks' } }

/-- Modelled from the spec: `DeleteRoute` (spec section 4.2; implementation
`k8s.go` not under the source tree).  `NotFound` ("path does not exist")
when no location matches; removing the last location collapses the
ordered list to nil. -/
def deleteRoute (inst : RpaasInstance) (path : String) : Except RpaasErr RpaasInstance :=
  let locs := inst.spec.locations.getD []
  if ∀ l ∈ locs, l.path ≠ path then
    .error (.notFound "path does not exist")
  else
    let locs' := locs.filter (fun l => l.path != path)
    .ok { inst with spec := { inst.spec with
            locations := if locs' = [] then none else some locs' } }

/-- Removal of a batch of extra files from the storage-key index: each
logical filename is converted to its storage key and must be present
(`NotFound` naming the file otherwise). -/
def removeFiles (files : List (String × String)) :
    List String → Except RpaasErr (List (String × String))
  | [] => .ok files
  | f :: rest =>
      let key := convertPathToConfigMapKey f
      match lookupA files key with
      | none => .error (.notFound ("file \"" ++ f ++ "\" does not exist"))
      | some _ => removeFiles (removeKey files key) rest

/-- Modelled from the spec: `DeleteExtraFiles` (spec section 4.4;
implementation `k8s.go` not under the source tree).  `NotFound` on a
missing set or a missing individual path; removing the final file
collapses the set to nil. -/
def deleteExtraFiles (inst : RpaasInstance) (filenames : List String) :
    Except RpaasErr RpaasInstance :=
  match inst.spec.extraFiles with
  | none => .error (.notFound "there are no extra files")
  | some fr =>
      match removeFiles fr.files filenames with
      | .error e => .error e
      | .ok files' =>
          .ok { inst with spec := { inst.spec with
                  extraFiles := if files' = [] then none
                                else some { fr with files := files' } } }

/-- The effective certificate item name: defaults to "default" when the
caller supplies an empty name (spec section 4.3). -/
def certName (name : String) : String := if name = "" then "default" else name

/-- The two storage keys materialized for a named certificate item:
`<name>.crt` and `<name>.key`. -/
def certItem (name : String) : TLSSecretItem :=
  { certificateField := certName name ++ ".crt", keyField := certName name ++ ".key" }

/-- Modelled from the spec: `UpdateCertificate` (spec section 4.3;
implementation `k8s.go` not under the source tree).  If the item already
exists and the stored bytes equal the new bytes the call fails with
`Conflict` (message as pinned by `Test_k8sRpaasManager_UpdateCertificate`);
otherwise the item's bytes are created or replaced and the item index
extended when new.  The secret's data is modelled as an association list
of key to bytes. -/
def updateCertificate (inst : RpaasInstance) (secretData : List (String × String))
    (name cert key : String) : Except RpaasErr (RpaasInstance × List (String × String)) :=
  let n := certName name
  let item : TLSSecretItem := certItem name
  match inst.spec.certificates with
  | none =>
      .ok ({ inst with spec := { inst.spec with
               certificates := some { secretName := inst.name ++ "-certificates",
                                      items := [item] } } },
           setA (setA secretData item.certificateField cert) item.keyField key)
  | some ts =>
      if item ∈ ts.items
         ∧ lookupA secretData item.certificateField = some cert
         ∧ lookupA secretData item.keyField = some key then
        .error (.conflict ("certificate \"" ++ n ++ "\" already is deployed"))
      else
        let items' := if item ∈ ts.items then ts.items else ts.items ++ [item]
        .ok ({ inst with spec := { inst.spec with
                 certificates := some { ts with items := items' } } },
             setA (setA secretData item.certificateField cert) item.keyField key)

/-- The external keyed store backing references: ConfigMap name to its
key/value data (spec section 6, "Value store"). -/
def ConfigMaps : Type := List (String × List (String × String))

/-- Modelled from the spec: the Value Resolver (spec sections 2 and 9;
implementation not under the source tree).  An inline value is returned
as is; a reference is fetched from the external keyed store; a missing
store object or key is a hard `NotFound` only when the reference is
explicitly marked required (`optional = some false`), and resolves to
the empty value otherwise. -/
def getValue (cms : ConfigMaps) (v : Value) : Except RpaasErr String :=
  if v.value ≠ "" then .ok v.value
  else
    match v.valueFrom with
    | none => .ok ""
    | some src =>
        match lookupA cms src.name with
        | none =>
            if src.optional = some false then
              .error (.notFound ("configmaps \"" ++ src.name ++ "\" not found"))
            else .ok ""
        | some data =>
            match lookupA data src.key with
            | none =>
                if src.optional = some false then
                  .error (.notFound ("key \"" ++ src.key ++ "\" not found in configmap \""
                            ++ src.name ++ "\""))
                else .ok ""
            | some s => .ok s

/-- Does this location carry a required (`optional = some false`)
reference whose backing store object or key is missing? -/
def requiredMissingV (cms : ConfigMaps) (v : Value) : Bool :=
  if v.value ≠ "" then false
  else
    match v.valueFrom with
    | none => false
    | some src =>
        if src.optional = some false then
          match lookupA cms src.name with
          | none => true
          | some data => (lookupA data src.key).isNone
        else false

/-- Does this location carry a required reference whose backing store
object or key is missing (the condition under which resolution fails)? -/
def requiredMissing (cms : ConfigMaps) (loc : Location) : Bool :=
  match loc.content with
  | none => false
  | some v => requiredMissingV cms v

/-- Resolution of an ordered location list into routes, in list order:
the first resolution error aborts the walk; a location whose content
resolves to the empty value is skipped; a plain destination location is
kept as a destination route. -/
def resolveLocations (cms : ConfigMaps) : List Location → Except RpaasErr (List Route)
  | [] => .ok []
  | loc :: rest =>
      match loc.content with
      | none =>
          match resolveLocations cms rest with
          | .error e => .error e
          | .ok rs => .ok ({ path := loc.path, destination := loc.destination,
                             httpsOnly := loc.forceHTTPS } :: rs)
      | some v =>
          match getValue cms v with
          | .error e => .error e
          | .ok c =>
              match resolveLocations cms rest with
              | .error e => .error e
              | .ok rs =>
                  if c = "" then .ok rs
                  else .ok ({ path := loc.path, content := c } :: rs)

/-- Modelled from the spec: `GetRoutes` (spec section 4.2; implementation
`k8s.go` not under the source tree): resolves every location's content in
list order against the external keyed store. -/
def getRoutes (cms : ConfigMaps) (inst : RpaasInstance) : Except RpaasErr (List Route) :=
  resolveLocations cms (inst.spec.locations.getD [])

/-- A live replica (pod): name, IP address and the per-container
readiness signals. -/
structure PodInfo where
  name : String
  ip : String := ""
  containersReady : List Bool := []
deriving DecidableEq, Repr

/-- Readiness of a replica: all containers reporting ready
(spec section 4.7). -/
def podReady (p : PodInfo) : Bool := p.containersReady.all (fun b => b)

/-- Lookup of a live replica object by name. -/
def findPod (pods : List PodInfo) (n : String) : Option PodInfo :=
  pods.find? (fun p => p.name = n)

/-- The slice of cluster state the purge coordinator reads: the existing
instance names, each instance's associated workload status (the replica
names it records) and the live replica objects. -/
structure ClusterState where
  instances : List String := []
  nginxPods : List (String × List String) := []
  pods : List PodInfo := []
deriving Repr

/-- The replica names recorded on the instance's associated workload
status. -/
def recordedPodNames (st : ClusterState) (inst : String) : List String :=
  (lookupA st.nginxPods inst).getD []

/-- The instance's current ready replicas: live replica objects for every
recorded name, filtered by readiness. -/
def readyPods (st : ClusterState) (inst : String) : List PodInfo :=
  ((recordedPodNames st inst).filterMap (findPod st.pods)).filter podReady

/-- The arguments of a cache purge: the path to purge and the
preserve-path flag. -/
structure PurgeCacheArgs where
  path : String := ""
  preservePath : Bool := false
deriving DecidableEq, Repr

/-- Modelled from the spec: `PurgeCache` (spec section 4.7; implementation
`k8s.go` not under the source tree).  `NotFound` when the instance is
absent, `Validation` ("path is required") when the path is empty;
otherwise one purge call per ready replica address, a per-replica failure
being absorbed rather than propagated, and the count of successful calls
returned.  The purge transport (spec section 6) is modelled as a
function from replica address to success. -/
def purgeCache (st : ClusterState) (name : String) (args : PurgeCacheArgs)
    (purge : String → Bool) : Except RpaasErr Nat :=
  if name ∉ st.instances then
    .error (.notFound ("rpaas instance \"" ++ name ++ "\" not found"))
  else if args.path = "" then
    .error (.validation "path is required")
  else
    .ok (((readyPods st name).filter (fun p => purge p.ip)).length)

/-- A cluster event attached to an object: the involved object's name and
kind, the message and the originating source (component and host). -/
structure Event where
  involvedName : String
  involvedKind : String
  message : String
  component : String := ""
  host : String := ""
deriving DecidableEq, Repr

/-- One formatted status line: the event message suffixed with its source
component, and the host when present. -/
def eventLine (e : Event) : String :=
  if e.host = "" then e.message ++ " [" ++ e.component ++ "]"
  else e.message ++ " [" ++ e.component ++ ", " ++ e.host ++ "]"

/-- Keep-first removal of exact duplicates, preserving encounter order:
an element already seen is suppressed. -/
def dedupGo (seen : List String) : List String → List String
  | [] => []
  | x :: xs => if seen.contains x then dedupGo seen xs else x :: dedupGo (x :: seen) xs

/-- Keep-first removal of exact duplicates, preserving encounter order. -/
def dedupKeepFirst (l : List String) : List String := dedupGo [] l

/-- The events attached to a given pod, in encounter order. -/
def podEvents (evts : List Event) (podName : String) : List Event :=
  evts.filter (fun e => e.involvedKind == "Pod" && e.involvedName == podName)

/-- The per-replica status text (spec section 4.6): distinct formatted
event messages joined by newline, in encounter order, exact duplicates
suppressed. -/
def formatPodEvents (evts : List Event) : String :=
  String.intercalate "\n" (dedupKeepFirst (evts.map eventLine))

/-- The per-replica result of the Status Aggregator: running flag,
status text and address. -/
structure PodStatus where
  running : Bool := false
  status : String := ""
  address : String := ""
deriving DecidableEq, Repr

/-- Modelled from the spec: `GetInstanceStatus` (spec section 4.6;
implementation `k8s.go` not under the source tree).  For each replica
name recorded on the instance's associated workload status: a missing
live replica yields `running = false` with a status message naming the
lookup failure (message as pinned by
`Test_k8sRpaasManager_GetInstanceStatus`) rather than a hard error; a
found replica reports its readiness, its IP address and its aggregated
event text. -/
def podStatusOf (pods : List PodInfo) (evts : List Event) (n : String) : PodStatus :=
  match findPod pods n with
  | none => { running := false, status := "pods \"" ++ n ++ "\" not found" }
  | some p =>
      { running := podReady p, status := formatPodEvents (podEvents evts n),
        address := p.ip }

/-- The per-replica health/address map produced by the Status Aggregator,
keyed by the recorded replica names. -/
def getInstanceStatus (pods : List PodInfo) (evts : List Event)
    (podNames : List String) : List (String × PodStatus) :=
  podNames.map (fun n => (n, podStatusOf pods evts n))

/-- The label key carrying the owning team. -/
def teamOwnerKey : String := "rpaas.extensions.tsuru.io/team-owner"

/-- The annotation key carrying the description. -/
def descriptionKey : String := "rpaas.extensions.tsuru.io/description"

/-- The annotation key carrying the tags. -/
def tagsKey : String := "rpaas.extensions.tsuru.io/tags"

/-- The identity labels stamped on an instance and on its pod template
(service name and instance name, in both label dialects). -/
def labelsForRpaasInstance (svc name : String) : List (String × String) :=
  [("rpaas.extensions.tsuru.io/service-name", svc),
   ("rpaas.extensions.tsuru.io/instance-name", name),
   ("rpaas_service", svc),
   ("rpaas_instance", name)]

/-- The full managed label set written by an instance update: the
identity labels plus the team owner. -/
def instanceManagedLabels (svc name team : String) : List (String × String) :=
  mergeMapA (labelsForRpaasInstance svc name) [(teamOwnerKey, team)]

/-- The label keys owned by the instance metadata (everything an update
may rewrite on the pod template's labels). -/
def managedLabelKeys : List String :=
  ["rpaas.extensions.tsuru.io/service-name",
   "rpaas.extensions.tsuru.io/instance-name",
   "rpaas.extensions.tsuru.io/team-owner",
   "rpaas_service", "rpaas_instance"]

/-- Character-list matching for the plan-override tag: returns the
remainder after the pattern when the pattern starts the list. -/
def stripLeading : List Char → List Char → Option (List Char)
  | [], rest => some rest
  | _, [] => none
  | p :: ps, c :: cs => if c = p then stripLeading ps cs else none

/-- The raw plan-override template carried by a `plan-override=` tag,
when present. -/
def tagPlanOverride (t : String) : Option String :=
  match stripLeading "plan-override=".data t.data with
  | some rest => some (String.mk rest)
  | none => none

/-- The plan-override template parsed from the tag list (first
`plan-override=` tag wins). -/
def extractPlanOverride (tags : List String) : Option String :=
  (tags.filterMap tagPlanOverride).head?

/-- The arguments of an instance update: description, plan, tags and
team owner. -/
structure UpdateInstanceArgs where
  description : String := ""
  plan : String := ""
  tags : List String := []
  team : String := ""
deriving DecidableEq, Repr

/-- Modelled from the spec: `UpdateInstance` (spec sections 2 and 4.5;
implementation `k8s.go` not under the source tree).  Resolves the new
plan through `getPlan`, then rewrites the instance's plan reference, its
team-owner label, its description/tags/team annotations (tags sorted and
comma-joined, as pinned by `Test_k8sRpaasManager_UpdateInstance`), the
plan-override template parsed from the tags, and merges the managed
labels into the pod template's labels, leaving every other pod-template
label untouched. -/
def updateInstance (svc : String) (plans : List RpaasPlan) (inst : RpaasInstance)
    (args : UpdateInstanceArgs) : Except RpaasErr RpaasInstance :=
  match getPlan plans args.plan with
  | .error e => .error e
  | .ok p =>
      let newLabels := instanceManagedLabels svc inst.name args.team
      .ok { inst with
              labels := mergeMapA inst.labels newLabels,
              annotations := mergeMapA inst.annotations
                [(descriptionKey, args.description),
                 (tagsKey, String.intercalate "," (sortStrings args.tags)),
                 (teamOwnerKey, args.team)],
              spec := { inst.spec with
                planName := p.name,
                planTemplate := extractPlanOverride args.tags,
                podTemplateLabels := mergeMapA inst.spec.podTemplateLabels newLabels } }

/-- The instance actually persisted after an `UpdateRoute` call: the
mutated instance on success, the unchanged instance when validation
failed (no partial write, spec section 7). -/
def persistedAfterUpdateRoute (inst : RpaasInstance) (r : Route) : RpaasInstance :=
  match updateRoute inst r with
  | .ok inst' => inst'
  | .error _ => inst

/-- The instance actually persisted after an `UpdateInstance` call:
the rewritten instance on success, the unchanged one on error. -/
def updatedInstance (svc : String) (plans : List RpaasPlan) (inst : RpaasInstance)
    (args : UpdateInstanceArgs) : RpaasInstance :=
  match updateInstance svc plans inst args with
  | .ok inst' => inst'
  | .error _ => inst

/-- `IsNotFoundError` of the source: does the call's outcome carry a
`NotFound` error? -/
def isNotFoundErr {α : Type} : Except RpaasErr α → Bool
  | .error (.notFound _) => true
  | _ => false

/-- Did the call succeed (returned without error)? -/
def succeeded {α : Type} : Except RpaasErr α → Bool
  | .ok _ => true
  | .error _ => false

/-- Concrete instance fixture mirroring `another-instance` of
`Test_k8sRpaasManager_UpdateRoute`: four locations, two inline/referenced
contents and two destinations. -/
def routesFixture : RpaasInstance :=
  { name := "another-instance",
    spec := { locations := some (
      [{ path := "/path1", content := some { value := "# My NGINX config for /path1 location" } },
       { path := "/path2", destination := "app2.tsuru.example.com" },
       { path := "/path3", destination := "app2.tsuru.example.com", forceHTTPS := true },
       { path := "/path4", content := some { valueFrom := some { name := "my-locations", key := "path1" } } }]) } }

/-- Route payload mirroring the in-place update test case: new
destination and force-HTTPS for the existing path `/path2`. -/
def routeUpd : Route :=
  { path := "/path2", destination := "another-app.tsuru.example.com", httpsOnly := true }

/-- Route payload mirroring the append test case: inline content at a
fresh path. -/
def routeNew : Route :=
  { path := "/custom/path", content := "# My custom NGINX config" }

/-- Concrete instance fixture mirroring `instance1` of
`Test_k8sRpaasManager_UpdateInstance`: managed identity labels plus a
custom pod-template label. -/
def updFixture : RpaasInstance :=
  { name := "instance1",
    labels := [("rpaas.extensions.tsuru.io/service-name", "rpaasv2"),
               ("rpaas.extensions.tsuru.io/instance-name", "instance1"),
               ("rpaas_service", "rpaasv2"),
               ("rpaas_instance", "instance1"),
               ("rpaas.extensions.tsuru.io/team-owner", "team-one")],
    annotations := [("rpaas.extensions.tsuru.io/description", "Description about instance1"),
                    ("rpaas.extensions.tsuru.io/tags", "tag1,tag2")],
    spec := { planName := "plan1",
              podTemplateLabels :=
                [("rpaas.extensions.tsuru.io/service-name", "rpaasv2"),
                 ("rpaas.extensions.tsuru.io/instance-name", "instance1"),
                 ("rpaas_service", "rpaasv2"),
                 ("rpaas_instance", "instance1"),
                 ("rpaas.extensions.tsuru.io/team-owner", "team-one"),
                 ("pod-label-1", "v1")] } }

/-- Instance with a single block, mirroring "when removing the last
remaining block" of `Test_k8sRpaasManager_DeleteBlock`. -/
def blockFixture : RpaasInstance :=
  { name := "another-instance",
    spec := { blocks := some [("http", { value := "# Some NGINX configuration at HTTP scope" })] } }

/-- Instance with a single location, mirroring "when removing the last
location" of `Test_k8sRpaasManager_DeleteRoute`. -/
def locFixture : RpaasInstance :=
  { name := "new-instance",
    spec := { locations := some (
      [{ path := "/my/custom/path",
         content := some { valueFrom := some { name := "my-custom-config",
                                               key := "just-another-key" } } }]) } }

/-- Instance with a single extra file, for the collapse-to-nil case of
`Test_k8sRpaasManager_DeleteExtraFiles`. -/
def fileFixture : RpaasInstance :=
  { name := "my-instance",
    spec := { extraFiles := some { name := "my-instance-extra-files",
                                   files := [("index.html", "index.html")] } } }

/-- Instance with a deployed "default" certificate item, mirroring
`another-instance` of `Test_k8sRpaasManager_UpdateCertificate`. -/
def certFixture : RpaasInstance :=
  { name := "another-instance",
    spec := { certificates := some (
      { secretName := "another-instance-certificates",
        items := [{ certificateField := "default.crt", keyField := "default.key" }] }) } }

/-- The backing secret data of `certFixture`: the stored "default" bytes
plus an unrelated item's entry. -/
def certSecretData : List (String × String) :=
  [("default.crt", "rsa-cert-pem"), ("default.key", "rsa-key-pem"),
   ("custom-name.crt", "ecdsa-cert-pem")]

/-- The external keyed store of `Test_k8sRpaasManager_GetRoutes`: one
ConfigMap with one key. -/
def locationsCms : ConfigMaps :=
  [("my-locations", [("path4", "# My NGINX config for /path4 location")])]

/-- Instance mirroring `instance3` of `Test_k8sRpaasManager_GetRoutes`:
a required (`optional = false`) reference to a missing key. -/
def missingKeyFixture : RpaasInstance :=
  { name := "instance3", spec := { locations := some (
      [{ path := "/path1", content := some { valueFrom := some (
          { name := "my-locations", key := "unknown-key", optional := some false }) } }]) } }

/-- Instance mirroring `instance4` of `Test_k8sRpaasManager_GetRoutes`:
a required reference to a missing ConfigMap. -/
def missingCmFixture : RpaasInstance :=
  { name := "instance4", spec := { locations := some (
      [{ path := "/path1", content := some { valueFrom := some (
          { name := "unknown-configmap", key := "unknown-key", optional := some false }) } }]) } }

/-- Instance mirroring the `/path4`..`/path6` locations of
`another-instance` of `Test_k8sRpaasManager_GetRoutes`: one resolvable
reference plus two missing references not explicitly marked required. -/
def optionalFixture : RpaasInstance :=
  { name := "another-instance", spec := { locations := some (
      [{ path := "/path4", content := some { valueFrom := some (
          { name := "my-locations", key := "path4" }) } },
       { path := "/path5", content := some { valueFrom := some (
          { name := "unknown-configmap", key := "path4" }) } },
       { path := "/path6", content := some { valueFrom := some (
          { name := "my-locations", key := "unknown-key" }) } }]) } }

/-- Concrete cluster fixture mirroring `Test_k8sRpaasManager_PurgeCache`:
two instances, one with two ready replicas and one whose recorded replica
has no live object. -/
def purgeFixture : ClusterState :=
  { instances := ["my-instance", "not-running-instance"],
    nginxPods := [("my-instance", ["my-instance-pod-1", "my-instance-pod-2"]),
                  ("not-running-instance", ["not-running-instance"])],
    pods := [{ name := "my-instance-pod-1", ip := "10.0.0.9", containersReady := [true] },
             { name := "my-instance-pod-2", ip := "10.0.0.10", containersReady := [true] },
             { name := "not-running-instance-pod", ip := "10.0.0.11",
               containersReady := [false] }] }

/-- Live replica objects mirroring `Test_k8sRpaasManager_GetInstanceStatus`:
two replicas with no container statuses (hence running) and one with a
non-ready container. -/
def statusPods : List PodInfo :=
  [{ name := "pod1", ip := "10.0.0.1" },
   { name := "pod2", ip := "10.0.0.2" },
   { name := "pod4", ip := "10.0.0.9", containersReady := [false] }]

/-- Events mirroring `evt1`/`evt2` of
`Test_k8sRpaasManager_GetInstanceStatus`: two messages for `pod1`, the
second with a source host. -/
def statusEvents : List Event :=
  [{ involvedName := "pod1", involvedKind := "Pod", message := "msg1", component := "c1" },
   { involvedName := "pod1", involvedKind := "Pod", message := "msg2", component := "c2",
     host := "h1" }]

/-- Plans mirroring `Test_k8sRpaasManager_UpdateInstance`. -/
def updPlans : List RpaasPlan := [{ name := "plan1" }, { name := "plan2" }]

/-- Update arguments mirroring `Test_k8sRpaasManager_UpdateInstance`
(plan-override tag body abstracted to a plain fragment). -/
def updArgs : UpdateInstanceArgs :=
  { description := "Another description", plan := "plan2",
    tags := ["tag3", "tag4", "tag5", "plan-override=fragment"], team := "team-two" }

theorem lookupA_setA_self {α : Type} (l : List (String × α)) (k : String) (v : α) :
    lookupA (setA l k v) k = some v := by
  induction l with
  | nil => simp [setA, lookupA]
  | cons kv rest ih =>
      obtain ⟨k', v'⟩ := kv
      by_cases h : k' = k
      · simp [setA, h, lookupA]
      · simp [setA, h, lookupA, ih]

theorem lookupA_setA_of_ne {α : Type} (l : List (String × α)) (k j : String) (v : α)
    (h : j ≠ k) : lookupA (setA l k v) j = lookupA l j := by
  induction l with
  | nil => simp [setA, lookupA, Ne.symm h]
  | cons kv rest ih =>
      obtain ⟨k', v'⟩ := kv
      by_cases hk : k' = k
      · subst hk
        simp [setA, lookupA, Ne.symm h]
      · simp [setA, hk, lookupA, ih]

theorem lookupA_mergeMapA_of_not_key {α : Type} (new base : List (String × α)) (j : String)
    (h : ∀ kv ∈ new, kv.1 ≠ j) : lookupA (mergeMapA base new) j = lookupA base j := by
  induction new generalizing base with
  | nil => rfl
  | cons kv rest ih =>
      have hstep : mergeMapA base (kv :: rest) = mergeMapA (setA base kv.1 kv.2) rest := rfl
      rw [hstep, ih (setA base kv.1 kv.2) (fun x hx => h x (List.mem_cons_of_mem _ hx))]
      exact lookupA_setA_of_ne base kv.1 j kv.2 (fun e => h kv (List.mem_cons_self _ _) e.symm)

theorem length_filter_sub {α : Type} (l : List α) (p : α → Bool) :
    (l.filter p).length = l.length - (l.filter (fun a => !p a)).length := by
  induction l with
  | nil => rfl
  | cons a l ih =>
      have hle := List.length_filter_le (fun a => !p a) l
      cases h : p a
      · have h1 : List.filter p (a :: l) = List.filter p l :=
          List.filter_cons_of_neg (by simp [h])
        have h2 : List.filter (fun a => !p a) (a :: l) = a :: List.filter (fun a => !p a) l :=
          List.filter_cons_of_pos (by simp [h])
        rw [h1, h2]
        simp only [List.length_cons]
        omega
      · have h1 : List.filter p (a :: l) = a :: List.filter p l :=
          List.filter_cons_of_pos (by simp [h])
        have h2 : List.filter (fun a => !p a) (a :: l) = List.filter (fun a => !p a) l :=
          List.filter_cons_of_neg (by simp [h])
        rw [h1, h2]
        simp only [List.length_cons]
        omega

/-- C9: `isPathValid` is false for `../../passwd`, `/bin/bash`, `..data/test`
and `subdir/my-file..txt`, and true for `./subdir/file.txt`, `my-file.txt`,
`path/to/my/file.txt` and `.my-hidden-file`. -/
theorem isPathValid_cases :
    isPathValid "../../passwd" = false ∧
    isPathValid "/bin/bash" = false ∧
    isPathValid "..data/test" = false ∧
    isPathValid "subdir/my-file..txt" = false ∧
    isPathValid "./subdir/file.txt" = true ∧
    isPathValid "my-file.txt" = true ∧
    isPathValid "path/to/my/file.txt" = true ∧
    isPathValid ".my-hidden-file" = true := by
  decide

/-- C1: `PurgeCache` fails with `NotFound` when the instance is absent and
with `Validation` ("path is required") when the path is empty; otherwise it
returns, with no error, the ready-replica count minus the number of failing
purge calls — in particular 0 with no ready replicas and the full count when
no call fails — a per-replica failure never failing the operation. -/
theorem purgeCache_spec (st : ClusterState) (name : String) (args : PurgeCacheArgs)
    (purge : String → Bool) :
    (name ∉ st.instances →
        purgeCache st name args purge =
          .error (.notFound ("rpaas instance \"" ++ name ++ "\" not found"))) ∧
    (name ∈ st.instances → args.path = "" →
        purgeCache st name args purge = .error (.validation "path is required")) ∧
    (name ∈ st.instances → args.path ≠ "" →
        purgeCache st name args purge =
          .ok ((readyPods st name).length
                - ((readyPods st name).filter (fun p => !purge p.ip)).length) ∧
        (readyPods st name = [] → purgeCache st name args purge = .ok 0) ∧
        ((∀ p ∈ readyPods st name, purge p.ip = true) →
            purgeCache st name args purge = .ok (readyPods st name).length)) := by
  refine ⟨fun h => ?_, fun h hp => ?_, fun h hp => ?_⟩
  · simp [purgeCache, h]
  · simp [purgeCache, h, hp]
  · have hmain : purgeCache st name args purge =
        .ok ((readyPods st name).filter (fun p => purge p.ip)).length := by
      simp [purgeCache, h, hp]
    refine ⟨?_, fun hnil => ?_, fun hall => ?_⟩
    · rw [hmain]
      exact congrArg Except.ok (length_filter_sub (readyPods st name) (fun p => purge p.ip))
    · rw [hmain, hnil]
      rfl
    · rw [hmain]
      exact congrArg Except.ok
        (congrArg List.length (List.filter_eq_self.mpr hall))

/-- Witness for C1 at the fixture of `Test_k8sRpaasManager_PurgeCache`:
absent instance, empty path, two successful calls, one injected failure,
and zero ready replicas. -/
theorem purgeCache_spec_witness :
    purgeCache purgeFixture "not-found-instance" { path := "/index.html" } (fun _ => true)
      = .error (.notFound "rpaas instance \"not-found-instance\" not found") ∧
    purgeCache purgeFixture "my-instance" {} (fun _ => true)
      = .error (.validation "path is required") ∧
    purgeCache purgeFixture "my-instance" { path := "/index.html" } (fun _ => true)
      = .ok 2 ∧
    purgeCache purgeFixture "my-instance" { path := "/index.html" }
      (fun ip => ip != "10.0.0.9") = .ok 1 ∧
    purgeCache purgeFixture "not-running-instance" { path := "/index.html" } (fun _ => true)
      = .ok 0 :=
  ⟨(purgeCache_spec purgeFixture "not-found-instance" _ _).1 (by decide),
   (purgeCache_spec purgeFixture "my-instance" {} _).2.1 (by decide) rfl,
   (((purgeCache_spec purgeFixture "my-instance" _ _).2.2 (by decide) (by decide)).2.2
      (by decide)).trans (congrArg Except.ok (by decide)),
   (((purgeCache_spec purgeFixture "my-instance" _ _).2.2 (by decide) (by decide)).1).trans
      (congrArg Except.ok (by decide)),
   ((purgeCache_spec purgeFixture "not-running-instance" _ _).2.2 (by decide)
      (by decide)).2.1 (by decide)⟩

/-- C2: `UpdateRoute` validates in this exact order with these distinct
`Validation` errors: empty path; path failing the safety check; neither
content nor destination; both content and destination; content together
with the force-HTTPS flag — and on every such error the persisted
instance is unchanged. -/
theorem updateRoute_validation (inst : RpaasInstance) (r : Route) :
    (r.path = "" →
        updateRoute inst r = .error (.validation "path is required")) ∧
    (r.path ≠ "" → routePathValid r.path = false →
        updateRoute inst r = .error (.validation "invalid path format")) ∧
    (r.path ≠ "" → routePathValid r.path = true → r.content = "" → r.destination = "" →
        updateRoute inst r = .error (.validation "either content or destination are required")) ∧
    (r.path ≠ "" → routePathValid r.path = true → r.content ≠ "" → r.destination ≠ "" →
        updateRoute inst r = .error (.validation "cannot set both content and destination")) ∧
    (r.path ≠ "" → routePathValid r.path = true → r.content ≠ "" → r.destination = "" →
        r.httpsOnly = true →
        updateRoute inst r = .error (.validation "cannot set both content and httpsonly")) ∧
    (∀ e, updateRoute inst r = .error e → persistedAfterUpdateRoute inst r = inst) := by
  refine ⟨fun h1 => ?_, fun h1 h2 => ?_, fun h1 h2 h3 h4 => ?_,
          fun h1 h2 h3 h4 => ?_, fun h1 h2 h3 h4 h5 => ?_, fun e he => ?_⟩
  · simp [updateRoute, validateRoute, h1]
  · simp [updateRoute, validateRoute, h1, h2]
  · simp [updateRoute, validateRoute, h1, h2, h3, h4]
  · simp [updateRoute, validateRoute, h1, h2, h3, h4]
  · simp [updateRoute, validateRoute, h1, h2, h3, h4, h5]
  · simp [persistedAfterUpdateRoute, he]

/-- Witness for C2 at the inputs of `Test_k8sRpaasManager_UpdateRoute`:
each of the five validation errors at its test input, and the unchanged
persisted instance on the first error. -/
theorem updateRoute_validation_witness :
    updateRoute {} { path := "" }
      = .error (.validation "path is required") ∧
    updateRoute {} { path := "../../passwd" }
      = .error (.validation "invalid path format") ∧
    updateRoute {} { path := "/my/custom/path" }
      = .error (.validation "either content or destination are required") ∧
    updateRoute {} { path := "/my/custom/path", destination := "app2.tsuru.example.com",
                     content := "# My NGINX config at location context" }
      = .error (.validation "cannot set both content and destination") ∧
    updateRoute {} { path := "/my/custom/path", content := "# My NGINX config",
                     httpsOnly := true }
      = .error (.validation "cannot set both content and httpsonly") ∧
    persistedAfterUpdateRoute {} { path := "" } = {} :=
  ⟨(updateRoute_validation {} _).1 rfl,
   (updateRoute_validation {} _).2.1 (by decide) (by decide),
   (updateRoute_validation {} _).2.2.1 (by decide) (by decide) rfl rfl,
   (updateRoute_validation {} _).2.2.2.1 (by decide) (by decide) (by decide) (by decide),
   (updateRoute_validation {} _).2.2.2.2.1 (by decide) (by decide) (by decide) rfl rfl,
   (updateRoute_validation {} { path := "" }).2.2.2.2.2 (.validation "path is required")
     ((updateRoute_validation {} { path := "" }).1 rfl)⟩

theorem setLocation_append (locs : List Location) (l : Location)
    (h : ∀ x ∈ locs, x.path ≠ l.path) : setLocation locs l = locs ++ [l] := by
  induction locs with
  | nil => rfl
  | cons x xs ih =>
      have hx : x.path ≠ l.path := h x (List.mem_cons_self _ _)
      simp [setLocation, hx, ih (fun y hy => h y (List.mem_cons_of_mem _ hy))]

theorem setLocation_replace (pre post : List Location) (loc l : Location)
    (hpre : ∀ x ∈ pre, x.path ≠ l.path) (hloc : loc.path = l.path) :
    setLocation (pre ++ loc :: post) l = pre ++ l :: post := by
  induction pre with
  | nil => simp [setLocation, hloc]
  | cons x xs ih =>
      have hx : x.path ≠ l.path := hpre x (List.mem_cons_self _ _)
      simp [setLocation, hx, ih (fun y hy => hpre y (List.mem_cons_of_mem _ hy))]

theorem mkLocation_path (r : Route) : (mkLocation r).path = r.path := by
  unfold mkLocation
  split
  · rfl
  · rfl

/-- C7: `UpdateRoute` on success mutates an existing path in place at its
index (every other location unchanged in content and position), appends a
new path at the end, and clears the stored force-HTTPS flag whenever
content is set, so the stored location never holds both. -/
theorem updateRoute_success (inst : RpaasInstance) (r : Route) (inst' : RpaasInstance)
    (h : updateRoute inst r = .ok inst') :
    (mkLocation r).path = r.path ∧
    (r.content ≠ "" →
        (mkLocation r).forceHTTPS = false ∧
        (mkLocation r).content = some { value := r.content } ∧
        (mkLocation r).destination = "") ∧
    ((∀ x ∈ inst.spec.locations.getD [], x.path ≠ r.path) →
        inst'.spec.locations = some (inst.spec.locations.getD [] ++ [mkLocation r])) ∧
    (∀ pre loc post, inst.spec.locations.getD [] = pre ++ loc :: post →
        (∀ x ∈ pre, x.path ≠ r.path) → loc.path = r.path →
        inst'.spec.locations = some (pre ++ mkLocation r :: post)) := by
  have hinst : inst'.spec.locations
      = some (setLocation (inst.spec.locations.getD []) (mkLocation r)) := by
    unfold updateRoute at h
    cases hv : validateRoute r with
    | some e => rw [hv] at h; cases h
    | none =>
        rw [hv] at h
        cases h
        rfl
  refine ⟨mkLocation_path r, fun hc => ?_, fun hnew => ?_, fun pre loc post hsplit hpre hloc => ?_⟩
  · simp [mkLocation, hc]
  · rw [hinst, setLocation_append _ _ (fun x hx => by rw [mkLocation_path]; exact hnew x hx)]
  · rw [hinst, hsplit,
        setLocation_replace pre post loc (mkLocation r)
          (fun x hx => by rw [mkLocation_path]; exact hpre x hx)
          (by rw [mkLocation_path]; exact hloc)]

/-- Witness for C7 at the fixture of `Test_k8sRpaasManager_UpdateRoute`:
updating `/path2` replaces it in place at index 1 of four locations;
a fresh path is appended; a content route clears the force-HTTPS flag. -/
theorem updateRoute_success_witness :
    (persistedAfterUpdateRoute routesFixture routeUpd).spec.locations
      = some ([{ path := "/path1",
                 content := some { value := "# My NGINX config for /path1 location" } }]
          ++ mkLocation routeUpd
          :: [{ path := "/path3", destination := "app2.tsuru.example.com", forceHTTPS := true },
              { path := "/path4",
                content := some { valueFrom := some { name := "my-locations", key := "path1" } } }]) ∧
    (persistedAfterUpdateRoute routesFixture routeNew).spec.locations
      = some (routesFixture.spec.locations.getD [] ++ [mkLocation routeNew]) ∧
    (mkLocation routeNew).forceHTTPS = false :=
  ⟨(updateRoute_success routesFixture routeUpd
        (persistedAfterUpdateRoute routesFixture routeUpd) rfl).2.2.2
      [{ path := "/path1", content := some { value := "# My NGINX config for /path1 location" } }]
      { path := "/path2", destination := "app2.tsuru.example.com" }
      [{ path := "/path3", destination := "app2.tsuru.example.com", forceHTTPS := true },
       { path := "/path4",
         content := some { valueFrom := some { name := "my-locations", key := "path1" } } }]
      rfl (by decide) rfl,
   (updateRoute_success routesFixture routeNew
        (persistedAfterUpdateRoute routesFixture routeNew) rfl).2.2.1 (by decide),
   ((updateRoute_success routesFixture routeNew
        (persistedAfterUpdateRoute routesFixture routeNew) rfl).2.1 (by decide)).1⟩

theorem getPlan_ok_mem (plans : List RpaasPlan) (name : String) (p : RpaasPlan)
    (h : name ≠ "") (hok : getPlan plans name = .ok p) : p ∈ plans ∧ p.name = name := by
  unfold getPlan at hok
  rw [if_pos h] at hok
  cases hfind : plans.find? (fun q => q.name = name) with
  | none => rw [hfind] at hok; cases hok
  | some q =>
      rw [hfind] at hok
      cases hok
      exact ⟨List.mem_of_find?_eq_some hfind, by simpa using List.find?_some hfind⟩

/-- C3: `getPlan` with a non-empty name is an exact lookup (`NotFound`
otherwise); with an empty name it returns the unique default plan,
fails `NotFound` ("no default plan found") with zero defaults, and fails
`Conflict` listing the offending names sorted with several defaults. -/
theorem getPlan_spec (plans : List RpaasPlan) (name : String) :
    (name ≠ "" →
        (∀ p, getPlan plans name = .ok p → p ∈ plans ∧ p.name = name) ∧
        ((∀ p ∈ plans, p.name ≠ name) →
            getPlan plans name = .error (.notFound ("plan \"" ++ name ++ "\" not found")))) ∧
    (name = "" →
        (plans.filter (fun p => p.isDefault) = [] →
            getPlan plans name = .error (.notFound "no default plan found")) ∧
        (∀ p, plans.filter (fun p => p.isDefault) = [p] →
            getPlan plans name = .ok p ∧ p ∈ plans ∧ p.isDefault = true) ∧
        (∀ p q rest, plans.filter (fun p => p.isDefault) = p :: q :: rest →
            getPlan plans name = .error (.conflict ("several default plans found: ["
              ++ String.intercalate ", "
                   (sortStrings (List.map RpaasPlan.name (p :: q :: rest))) ++ "]")))) := by
  constructor
  · intro h
    refine ⟨fun p hp => getPlan_ok_mem plans name p h hp, fun habs => ?_⟩
    have hfind : plans.find? (fun q => q.name = name) = none :=
      List.find?_eq_none.mpr (fun x hx => by simpa using habs x hx)
    unfold getPlan
    rw [if_pos h, hfind]
  · intro h
    subst h
    refine ⟨fun hf => ?_, fun p hf => ?_, fun p q rest hf => ?_⟩
    · unfold getPlan
      rw [if_neg (by simp), hf]
    · have hmem := List.mem_filter.mp (by rw [hf]; exact List.mem_cons_self p [])
      refine ⟨?_, hmem.1, by simpa using hmem.2⟩
      unfold getPlan
      rw [if_neg (by simp), hf]
    · unfold getPlan
      rw [if_neg (by simp), hf]

/-- Witness for C3 at the fixtures of `Test_getPlan`: absent named plan,
exact lookup, unique default, zero defaults and two defaults. -/
theorem getPlan_spec_witness :
    getPlan [] "unknown-plan" = .error (.notFound "plan \"unknown-plan\" not found") ∧
    (({ name := "xxl" } : RpaasPlan) ∈ [({ name := "xxl" } : RpaasPlan)] ∧
      ({ name := "xxl" } : RpaasPlan).name = "xxl") ∧
    getPlan [{ name := "some-default-plan", isDefault := true }] ""
      = .ok { name := "some-default-plan", isDefault := true } ∧
    getPlan [{ name := "plan1" }, { name := "plan2" }] ""
      = .error (.notFound "no default plan found") ∧
    getPlan [{ name := "plan1", isDefault := true }, { name := "plan2", isDefault := true }] ""
      = .error (.conflict "several default plans found: [plan1, plan2]") :=
  ⟨((getPlan_spec [] "unknown-plan").1 (by decide)).2 (by simp),
   ((getPlan_spec [{ name := "xxl" }] "xxl").1 (by decide)).1 { name := "xxl" } rfl,
   (((getPlan_spec [{ name := "some-default-plan", isDefault := true }] "").2 rfl).2.1
      { name := "some-default-plan", isDefault := true } rfl).1,
   ((getPlan_spec [{ name := "plan1" }, { name := "plan2" }] "").2 rfl).1 rfl,
   ((getPlan_spec [{ name := "plan1", isDefault := true },
                   { name := "plan2", isDefault := true }] "").2 rfl).2.2
      { name := "plan1", isDefault := true } { name := "plan2", isDefault := true } [] rfl⟩

/-- C4: deleting the last remaining element of a child collection
collapses it to nil (absent), never to an empty container, leaving the
rest of the instance unchanged: the last block, the last location and
the last extra file. -/
theorem delete_last_collapses :
    (∀ (inst : RpaasInstance) (name : String) (v : Value),
        inst.spec.blocks = some [(name, v)] →
        deleteBlock inst name =
          .ok { inst with spec := { inst.spec with blocks := none } }) ∧
    (∀ (inst : RpaasInstance) (loc : Location),
        inst.spec.locations = some [loc] →
        deleteRoute inst loc.path =
          .ok { inst with spec := { inst.spec with locations := none } }) ∧
    (∀ (inst : RpaasInstance) (fr : FilesRef) (f p : String),
        inst.spec.extraFiles = some fr → fr.files = [(convertPathToConfigMapKey f, p)] →
        deleteExtraFiles inst [f] =
          .ok { inst with spec := { inst.spec with extraFiles := none } }) := by
  refine ⟨fun inst name v h => ?_, fun inst loc h => ?_, fun inst fr f p h1 h2 => ?_⟩
  · simp [deleteBlock, h, lookupA, removeKey]
  · simp [deleteRoute, h]
  · simp [deleteExtraFiles, h1, h2, removeFiles, lookupA, removeKey]

/-- Witness for C4 at the fixtures of the delete tests: each collection
with exactly one element collapses to `none` on deletion. -/
theorem delete_last_collapses_witness :
    deleteBlock blockFixture "http"
      = .ok { blockFixture with spec := { blockFixture.spec with blocks := none } } ∧
    deleteRoute locFixture "/my/custom/path"
      = .ok { locFixture with spec := { locFixture.spec with locations := none } } ∧
    deleteExtraFiles fileFixture ["index.html"]
      = .ok { fileFixture with spec := { fileFixture.spec with extraFiles := none } } :=
  ⟨delete_last_collapses.1 blockFixture "http"
      { value := "# Some NGINX configuration at HTTP scope" } rfl,
   delete_last_collapses.2.1 locFixture
      { path := "/my/custom/path",
        content := some { valueFrom := some { name := "my-custom-config",
                                              key := "just-another-key" } } } rfl,
   delete_last_collapses.2.2 fileFixture
      { name := "my-instance-extra-files", files := [("index.html", "index.html")] }
      "index.html" "index.html" rfl (by decide)⟩

/-- C5: `UpdateCertificate` on an existing item whose stored certificate
and key bytes are byte-for-byte identical to the new ones always fails
with `Conflict`, never succeeding as a silent no-op; with differing
bytes it replaces the stored bytes for that name (item index unchanged),
leaving every other key of the same secret intact. -/
theorem updateCertificate_spec (inst : RpaasInstance) (ts : TLSSecret)
    (secretData : List (String × String)) (name cert key : String)
    (hc : inst.spec.certificates = some ts) :
    (certItem name ∈ ts.items →
        lookupA secretData (certItem name).certificateField = some cert →
        lookupA secretData (certItem name).keyField = some key →
        updateCertificate inst secretData name cert key =
          .error (.conflict ("certificate \"" ++ certName name ++ "\" already is deployed"))) ∧
    (certItem name ∈ ts.items →
        ¬(lookupA secretData (certItem name).certificateField = some cert ∧
          lookupA secretData (certItem name).keyField = some key) →
        updateCertificate inst secretData name cert key =
          .ok ({ inst with spec := { inst.spec with certificates := some ts } },
               setA (setA secretData (certItem name).certificateField cert)
                 (certItem name).keyField key)) ∧
    lookupA (setA (setA secretData (certItem name).certificateField cert)
        (certItem name).keyField key) (certItem name).keyField = some key ∧
    ((certItem name).certificateField ≠ (certItem name).keyField →
        lookupA (setA (setA secretData (certItem name).certificateField cert)
            (certItem name).keyField key) (certItem name).certificateField = some cert) ∧
    (∀ j, j ≠ (certItem name).certificateField → j ≠ (certItem name).keyField →
        lookupA (setA (setA secretData (certItem name).certificateField cert)
            (certItem name).keyField key) j = lookupA secretData j) := by
  refine ⟨fun hm h1 h2 => ?_, fun hm hne => ?_, lookupA_setA_self _ _ _,
          fun hne => ?_, fun j hj1 hj2 => ?_⟩
  · simp [updateCertificate, hc, hm, h1, h2]
  · simp [updateCertificate, hc, hm]
    exact fun ha hb => hne ⟨ha, hb⟩
  · rw [lookupA_setA_of_ne _ _ _ _ hne]
    exact lookupA_setA_self _ _ _
  · rw [lookupA_setA_of_ne _ _ _ _ hj2, lookupA_setA_of_ne _ _ _ _ hj1]

/-- Witness for C5 at the fixture of
`Test_k8sRpaasManager_UpdateCertificate`: identical bytes yield the
Conflict, differing bytes replace the stored "default" bytes and leave
the unrelated `custom-name.crt` entry untouched. -/
theorem updateCertificate_spec_witness :
    updateCertificate certFixture certSecretData "" "rsa-cert-pem" "rsa-key-pem"
      = .error (.conflict "certificate \"default\" already is deployed") ∧
    updateCertificate certFixture certSecretData "" "new-cert-pem" "new-key-pem"
      = .ok (certFixture,
             setA (setA certSecretData "default.crt" "new-cert-pem")
               "default.key" "new-key-pem") ∧
    lookupA (setA (setA certSecretData "default.crt" "new-cert-pem")
        "default.key" "new-key-pem") "default.key" = some "new-key-pem" ∧
    lookupA (setA (setA certSecretData "default.crt" "new-cert-pem")
        "default.key" "new-key-pem") "custom-name.crt"
      = lookupA certSecretData "custom-name.crt" :=
  ⟨(updateCertificate_spec certFixture
      { secretName := "another-instance-certificates",
        items := [{ certificateField := "default.crt", keyField := "default.key" }] }
      certSecretData "" "rsa-cert-pem" "rsa-key-pem" (by rfl)).1 (by decide) rfl rfl,
   (updateCertificate_spec certFixture
      { secretName := "another-instance-certificates",
        items := [{ certificateField := "default.crt", keyField := "default.key" }] }
      certSecretData "" "new-cert-pem" "new-key-pem" (by rfl)).2.1 (by decide) (by decide),
   (updateCertificate_spec certFixture
      { secretName := "another-instance-certificates",
        items := [{ certificateField := "default.crt", keyField := "default.key" }] }
      certSecretData "" "new-cert-pem" "new-key-pem" (by rfl)).2.2.1,
   (updateCertificate_spec certFixture
      { secretName := "another-instance-certificates",
        items := [{ certificateField := "default.crt", keyField := "default.key" }] }
      certSecretData "" "new-cert-pem" "new-key-pem" (by rfl)).2.2.2.2 "custom-name.crt"
      (by decide) (by decide)⟩

theorem getValue_outcome (cms : ConfigMaps) (v : Value) :
    isNotFoundErr (getValue cms v) = requiredMissingV cms v ∧
    succeeded (getValue cms v) = !requiredMissingV cms v := by
  unfold getValue requiredMissingV
  by_cases hv : v.value ≠ ""
  · simp [hv, isNotFoundErr, succeeded]
  · simp only [if_neg hv]
    cases hsrc : v.valueFrom with
    | none => simp [isNotFoundErr, succeeded]
    | some src =>
        by_cases hopt : src.optional = some false
        · cases hcm : lookupA cms src.name with
          | none => simp [hopt, hcm, isNotFoundErr, succeeded]
          | some data =>
              cases hk : lookupA data src.key with
              | none => simp [hopt, hcm, hk, isNotFoundErr, succeeded]
              | some s => simp [hopt, hcm, hk, isNotFoundErr, succeeded]
        · cases hcm : lookupA cms src.name with
          | none => simp [hopt, hcm, isNotFoundErr, succeeded]
          | some data =>
              cases hk : lookupA data src.key with
              | none => simp [hopt, hcm, hk, isNotFoundErr, succeeded]
              | some s => simp [hopt, hcm, hk, isNotFoundErr, succeeded]

theorem isNotFoundErr_error {α β : Type} (e : RpaasErr) :
    isNotFoundErr (Except.error e : Except RpaasErr α)
      = isNotFoundErr (Except.error e : Except RpaasErr β) := by
  cases e
  all_goals rfl

theorem resolveLocations_outcome (cms : ConfigMaps) (locs : List Location) :
    succeeded (resolveLocations cms locs)
      = locs.all (fun loc => !requiredMissing cms loc) ∧
    isNotFoundErr (resolveLocations cms locs)
      = !locs.all (fun loc => !requiredMissing cms loc) := by
  induction locs with
  | nil => simp [resolveLocations, succeeded, isNotFoundErr]
  | cons loc rest ih =>
      obtain ⟨ih1, ih2⟩ := ih
      cases hc : loc.content with
      | none =>
          have hrm : requiredMissing cms loc = false := by simp [requiredMissing, hc]
          cases hres : resolveLocations cms rest with
          | ok rs =>
              have hstep : resolveLocations cms (loc :: rest)
                  = .ok ({ path := loc.path, destination := loc.destination,
                           httpsOnly := loc.forceHTTPS } :: rs) := by
                simp [resolveLocations, hc, hres]
              have hall : rest.all (fun l => !requiredMissing cms l) = true := by
                rw [← ih1, hres]
                rfl
              refine ⟨?_, ?_⟩
              · rw [hstep, List.all_cons, hrm, hall]
                rfl
              · rw [hstep, List.all_cons, hrm, hall]
                rfl
          | error e =>
              have hstep : resolveLocations cms (loc :: rest) = .error e := by
                simp [resolveLocations, hc, hres]
              have hall : rest.all (fun l => !requiredMissing cms l) = false := by
                rw [← ih1, hres]
                rfl
              have h2 : isNotFoundErr (Except.error e : Except RpaasErr (List Route))
                  = true := by
                rw [hres, hall] at ih2
                simpa using ih2
              refine ⟨?_, ?_⟩
              · rw [hstep, List.all_cons, hrm, hall]
                rfl
              · rw [hstep, List.all_cons, hrm, hall]
                exact h2
      | some v =>
          have hrm : requiredMissing cms loc = requiredMissingV cms v := by
            simp [requiredMissing, hc]
          obtain ⟨g1, g2⟩ := getValue_outcome cms v
          cases hgv : getValue cms v with
          | error e =>
              rw [hgv] at g1 g2
              have hrmv : requiredMissingV cms v = true := by
                cases h : requiredMissingV cms v
                · rw [h] at g2
                  exact absurd g2 (by simp [succeeded])
                · rfl
              have hstep : resolveLocations cms (loc :: rest) = .error e := by
                simp [resolveLocations, hc, hgv]
              refine ⟨?_, ?_⟩
              · rw [hstep, List.all_cons, hrm, hrmv]
                rfl
              · rw [hstep, List.all_cons, hrm, hrmv]
                rw [hrmv] at g1
                exact (isNotFoundErr_error e).trans g1
          | ok c =>
              rw [hgv] at g2
              have hrmv : requiredMissingV cms v = false := by
                cases h : requiredMissingV cms v
                · rfl
                · rw [h] at g2
                  exact absurd g2 (by simp [succeeded])
              cases hres : resolveLocations cms rest with
              | error e2 =>
                  have hstep : resolveLocations cms (loc :: rest) = .error e2 := by
                    simp [resolveLocations, hc, hgv, hres]
                  have hall : rest.all (fun l => !requiredMissing cms l) = false := by
                    rw [← ih1, hres]
                    rfl
                  have h2 : isNotFoundErr (Except.error e2 : Except RpaasErr (List Route))
                      = true := by
                    rw [hres, hall] at ih2
                    simpa using ih2
                  refine ⟨?_, ?_⟩
                  · rw [hstep, List.all_cons, hrm, hrmv, hall]
                    rfl
                  · rw [hstep, List.all_cons, hrm, hrmv, hall]
                    exact h2
              | ok rs =>
                  have hall : rest.all (fun l => !requiredMissing cms l) = true := by
                    rw [← ih1, hres]
                    rfl
                  by_cases hcc : c = ""
                  · have hstep : resolveLocations cms (loc :: rest) = .ok rs := by
                      simp [resolveLocations, hc, hgv, hres, hcc]
                    refine ⟨?_, ?_⟩
                    · rw [hstep, List.all_cons, hrm, hrmv, hall]
                      rfl
                    · rw [hstep, List.all_cons, hrm, hrmv, hall]
                      rfl
                  · have hstep : resolveLocations cms (loc :: rest)
                        = .ok ({ path := loc.path, content := c } :: rs) := by
                      simp [resolveLocations, hc, hgv, hres, hcc]
                    refine ⟨?_, ?_⟩
                    · rw [hstep, List.all_cons, hrm, hrmv, hall]
                      rfl
                    · rw [hstep, List.all_cons, hrm, hrmv, hall]
                      rfl

/-- C6: `GetRoutes` resolves every location's content in list order: any
location with a required (`optional = false`) reference whose backing
store object or key is missing makes the whole call fail with the
underlying `NotFound`; when no location has a required-missing
reference the call succeeds, an optional missing reference resolving to
empty content without error. -/
theorem getRoutes_spec (cms : ConfigMaps) (inst : RpaasInstance) :
    ((∃ loc ∈ inst.spec.locations.getD [], requiredMissing cms loc = true) →
        isNotFoundErr (getRoutes cms inst) = true) ∧
    ((∀ loc ∈ inst.spec.locations.getD [], requiredMissing cms loc = false) →
        succeeded (getRoutes cms inst) = true) ∧
    (∀ v src, v.value = "" → v.valueFrom = some src → src.optional ≠ some false →
        lookupA cms src.name = none → getValue cms v = .ok "") ∧
    (∀ v src data, v.value = "" → v.valueFrom = some src → src.optional ≠ some false →
        lookupA cms src.name = some data → lookupA data src.key = none →
        getValue cms v = .ok "") := by
  refine ⟨fun ⟨loc, hmem, hreq⟩ => ?_, fun hall => ?_, fun v src h1 h2 h3 h4 => ?_,
          fun v src data h1 h2 h3 h4 h5 => ?_⟩
  · have h := (resolveLocations_outcome cms (inst.spec.locations.getD [])).2
    unfold getRoutes
    rw [h]
    have hfalse : (inst.spec.locations.getD []).all (fun l => !requiredMissing cms l)
        = false :=
      List.all_eq_false.mpr ⟨loc, hmem, by simp [hreq]⟩
    rw [hfalse]
    rfl
  · have h := (resolveLocations_outcome cms (inst.spec.locations.getD [])).1
    unfold getRoutes
    rw [h]
    exact List.all_eq_true.mpr (fun l hl => by simp [hall l hl])
  · simp [getValue, h1, h2, h3, h4]
  · simp [getValue, h1, h2, h3, h4, h5]

/-- Witness for C6 at the fixtures of `Test_k8sRpaasManager_GetRoutes`:
a required missing key and a required missing ConfigMap both surface
`NotFound`; references not marked required resolve without error, to
empty content. -/
theorem getRoutes_spec_witness :
    isNotFoundErr (getRoutes locationsCms missingKeyFixture) = true ∧
    isNotFoundErr (getRoutes locationsCms missingCmFixture) = true ∧
    succeeded (getRoutes locationsCms optionalFixture) = true ∧
    getValue locationsCms
        { valueFrom := some { name := "unknown-configmap", key := "path4" } } = .ok "" ∧
    getValue locationsCms
        { valueFrom := some { name := "my-locations", key := "unknown-key" } } = .ok "" :=
  ⟨(getRoutes_spec locationsCms missingKeyFixture).1 (by decide),
   (getRoutes_spec locationsCms missingCmFixture).1 (by decide),
   (getRoutes_spec locationsCms optionalFixture).2.1 (by decide),
   (getRoutes_spec locationsCms optionalFixture).2.2.1
      { valueFrom := some { name := "unknown-configmap", key := "path4" } }
      { name := "unknown-configmap", key := "path4" } rfl rfl (by decide) (by decide),
   (getRoutes_spec locationsCms optionalFixture).2.2.2
      { valueFrom := some { name := "my-locations", key := "unknown-key" } }
      { name := "my-locations", key := "unknown-key" }
      [("path4", "# My NGINX config for /path4 location")]
      rfl rfl (by decide) (by decide) (by decide)⟩

theorem lookupA_map_self {β : Type} (names : List String) (g : String → β) (n : String)
    (h : n ∈ names) :
    lookupA (names.map (fun m => (m, g m))) n = some (g n) := by
  induction names with
  | nil => cases h
  | cons m rest ih =>
      by_cases hm : m = n
      · subst hm
        simp [lookupA]
      · rcases List.mem_cons.mp h with h' | h'
        · exact absurd h'.symm hm
        · simp [lookupA, hm, ih h']

/-- C8: `GetInstanceStatus` maps every recorded replica name: a missing
live replica yields `running = false` with a status message naming the
lookup failure (the overall call is total, not a hard error); a found
replica reports its readiness signal as `running`, its IP as `address`,
and as status text the newline-joined, duplicate-suppressed, in-order
formatting of its events, each message suffixed with component (and
host). -/
theorem getInstanceStatus_spec (pods : List PodInfo) (evts : List Event)
    (podNames : List String) :
    ∀ n ∈ podNames,
      (findPod pods n = none →
          lookupA (getInstanceStatus pods evts podNames) n =
            some { running := false, status := "pods \"" ++ n ++ "\" not found",
                   address := "" }) ∧
      (∀ p, findPod pods n = some p →
          lookupA (getInstanceStatus pods evts podNames) n =
            some { running := podReady p,
                   status := formatPodEvents (podEvents evts n), address := p.ip }) := by
  intro n hn
  have hbase : lookupA (getInstanceStatus pods evts podNames) n
      = some (podStatusOf pods evts n) :=
    lookupA_map_self podNames (podStatusOf pods evts) n hn
  constructor
  · intro hf
    rw [hbase]
    simp [podStatusOf, hf]
  · intro p hf
    rw [hbase]
    simp [podStatusOf, hf]

/-- Witness for C8 at the fixture of
`Test_k8sRpaasManager_GetInstanceStatus`: pod1 running with aggregated
events, pod2 running with empty status, missing pod3 reported not
running with the lookup-failure message, non-ready pod4 not running. -/
theorem getInstanceStatus_spec_witness :
    lookupA (getInstanceStatus statusPods statusEvents ["pod1", "pod2"]) "pod1"
      = some { running := true, status := "msg1 [c1]\nmsg2 [c2, h1]",
               address := "10.0.0.1" } ∧
    lookupA (getInstanceStatus statusPods statusEvents ["pod1", "pod2"]) "pod2"
      = some { running := true, status := "", address := "10.0.0.2" } ∧
    lookupA (getInstanceStatus statusPods statusEvents ["pod3"]) "pod3"
      = some { running := false, status := "pods \"pod3\" not found", address := "" } ∧
    lookupA (getInstanceStatus statusPods statusEvents ["pod4"]) "pod4"
      = some { running := false, status := "", address := "10.0.0.9" } :=
  ⟨((getInstanceStatus_spec statusPods statusEvents ["pod1", "pod2"] "pod1" (by decide)).2
      { name := "pod1", ip := "10.0.0.1" } (by decide)).trans (by decide),
   ((getInstanceStatus_spec statusPods statusEvents ["pod1", "pod2"] "pod2" (by decide)).2
      { name := "pod2", ip := "10.0.0.2" } (by decide)).trans (by decide),
   (getInstanceStatus_spec statusPods statusEvents ["pod3"] "pod3" (by decide)).1 (by decide),
   ((getInstanceStatus_spec statusPods statusEvents ["pod4"] "pod4" (by decide)).2
      { name := "pod4", ip := "10.0.0.9", containersReady := [false] } (by decide)).trans
      (by decide)⟩

/-- C10: `UpdateInstance` on success rewrites exactly the plan reference,
the team-owner label, the description/tags/team annotations and the
plan-override template parsed from the tags, and every pod-template
label outside the managed metadata keys is left unchanged. -/
theorem updateInstance_spec (svc : String) (plans : List RpaasPlan) (inst : RpaasInstance)
    (args : UpdateInstanceArgs) (p : RpaasPlan)
    (hplan : args.plan ≠ "") (hget : getPlan plans args.plan = .ok p) :
    (updatedInstance svc plans inst args).spec.planName = args.plan ∧
    lookupA (updatedInstance svc plans inst args).labels teamOwnerKey = some args.team ∧
    lookupA (updatedInstance svc plans inst args).annotations descriptionKey
      = some args.description ∧
    lookupA (updatedInstance svc plans inst args).annotations tagsKey
      = some (String.intercalate "," (sortStrings args.tags)) ∧
    lookupA (updatedInstance svc plans inst args).annotations teamOwnerKey
      = some args.team ∧
    (updatedInstance svc plans inst args).spec.planTemplate = extractPlanOverride args.tags ∧
    (∀ j, j ∉ managedLabelKeys →
        lookupA (updatedInstance svc plans inst args).spec.podTemplateLabels j
          = lookupA inst.spec.podTemplateLabels j) := by
  have hname : p.name = args.plan := (getPlan_ok_mem plans args.plan p hplan hget).2
  have hupd : updatedInstance svc plans inst args
      = { inst with
            labels := mergeMapA inst.labels (instanceManagedLabels svc inst.name args.team),
            annotations := mergeMapA inst.annotations
              [(descriptionKey, args.description),
               (tagsKey, String.intercalate "," (sortStrings args.tags)),
               (teamOwnerKey, args.team)],
            spec := { inst.spec with
              planName := p.name,
              planTemplate := extractPlanOverride args.tags,
              podTemplateLabels :=
                mergeMapA inst.spec.podTemplateLabels
                  (instanceManagedLabels svc inst.name args.team) } } := by
    unfold updatedInstance updateInstance
    rw [hget]
  have hform : instanceManagedLabels svc inst.name args.team
      = labelsForRpaasInstance svc inst.name ++ [(teamOwnerKey, args.team)] := rfl
  have hann : mergeMapA inst.annotations
        [(descriptionKey, args.description),
         (tagsKey, String.intercalate "," (sortStrings args.tags)),
         (teamOwnerKey, args.team)]
      = setA (setA (setA inst.annotations descriptionKey args.description)
          tagsKey (String.intercalate "," (sortStrings args.tags)))
          teamOwnerKey args.team := rfl
  refine ⟨?_, ?_, ?_, ?_, ?_, ?_, ?_⟩
  · rw [hupd]
    exact hname
  · rw [hupd, hform, mergeMapA, List.foldl_append]
    exact lookupA_setA_self _ _ _
  · rw [hupd, hann,
        lookupA_setA_of_ne _ _ _ _ (by decide),
        lookupA_setA_of_ne _ _ _ _ (by decide)]
    exact lookupA_setA_self _ _ _
  · rw [hupd, hann, lookupA_setA_of_ne _ _ _ _ (by decide)]
    exact lookupA_setA_self _ _ _
  · rw [hupd, hann]
    exact lookupA_setA_self _ _ _
  · rw [hupd]
  · intro j hj
    rw [hupd]
    apply lookupA_mergeMapA_of_not_key
    intro kv hkv
    rw [hform] at hkv
    have hmemk : kv.1 ∈ managedLabelKeys := by
      simp only [labelsForRpaasInstance, List.mem_append, List.mem_cons,
        List.not_mem_nil, or_false] at hkv
      rcases hkv with (h | h | h | h) | h
      all_goals rw [h]
      all_goals simp [managedLabelKeys, teamOwnerKey]
    exact fun e => hj (e ▸ hmemk)

/-- Witness for C10 at the fixture of `Test_k8sRpaasManager_UpdateInstance`:
plan, team-owner label, description/tags/team annotations and the
plan-override template rewritten; the custom pod label `pod-label-1`
untouched. -/
theorem updateInstance_spec_witness :
    (updatedInstance "rpaasv2" updPlans updFixture updArgs).spec.planName = "plan2" ∧
    lookupA (updatedInstance "rpaasv2" updPlans updFixture updArgs).labels teamOwnerKey
      = some "team-two" ∧
    lookupA (updatedInstance "rpaasv2" updPlans updFixture updArgs).annotations
        descriptionKey = some "Another description" ∧
    lookupA (updatedInstance "rpaasv2" updPlans updFixture updArgs).annotations tagsKey
      = some "plan-override=fragment,tag3,tag4,tag5" ∧
    (updatedInstance "rpaasv2" updPlans updFixture updArgs).spec.planTemplate
      = some "fragment" ∧
    lookupA (updatedInstance "rpaasv2" updPlans updFixture updArgs).spec.podTemplateLabels
        "pod-label-1" = some "v1" := by
  have h := updateInstance_spec "rpaasv2" updPlans updFixture updArgs { name := "plan2" }
    (by decide) (by rfl)
  refine ⟨h.1, h.2.1, h.2.2.1, ?_, ?_, ?_⟩
  · exact h.2.2.2.1.trans (congrArg some (by decide))
  · exact h.2.2.2.2.2.1.trans (by decide)
  · exact (h.2.2.2.2.2.2 "pod-label-1" (by decide)).trans (by decide)

end Rpaas
